import Mathlib

/-!
Verification of the DCP stream-observer layer of a sync-gateway style DCP
client, shallowly embedded from the Go sources.

Machine integers (uint8/16/32/64) are modelled as `Nat`: the observer only
copies them between records, so no overflow can occur.  Go byte slices are
modelled as `List Nat`, Go errors as `Option String`.  The observer methods
perform exactly two kinds of side effects: `workerForVbno(vb).Send(e)` and a
warning log; each method is embedded as a pure function returning the list of
those effects in program order.
-/

namespace SGDcp

/-- Go byte slices are modelled as lists of byte values. -/
abbrev Bytes := List Nat

/-- Go `error` values are modelled as an optional message; `none` is Go `nil`. -/
abbrev GoError := Option String

/-- Transport snapshot-type flag (gocbcore.SnapshotState), an opaque integer. -/
abbrev SnapshotState := Nat

/-- Transport callback payload gocbcore.DcpSnapshotMarker (fields the observer reads). -/
structure DcpSnapshotMarker where
  StartSeqNo : Nat
  EndSeqNo : Nat
  VbID : Nat
  StreamID : Nat
  SnapshotType : SnapshotState
deriving DecidableEq, Repr

/-- Transport callback payload gocbcore.DcpMutation (fields the observer reads). -/
structure DcpMutation where
  SeqNo : Nat
  Flags : Nat
  Expiry : Nat
  Cas : Nat
  Datatype : Nat
  VbID : Nat
  StreamID : Nat
  CollectionID : Nat
  Key : Bytes
  Value : Bytes
deriving DecidableEq, Repr

/-- Transport callback payload gocbcore.DcpDeletion (fields the observer reads). -/
structure DcpDeletion where
  SeqNo : Nat
  Cas : Nat
  Datatype : Nat
  VbID : Nat
  StreamID : Nat
  CollectionID : Nat
  Key : Bytes
  Value : Bytes
deriving DecidableEq, Repr

/-- Transport callback payload gocbcore.DcpStreamEnd (fields the observer reads). -/
structure DcpStreamEnd where
  VbID : Nat
  StreamID : Nat
deriving DecidableEq, Repr

/-- Transport callback payload gocbcore.DcpExpiration (fields the observer reads). -/
structure DcpExpiration where
  SeqNo : Nat
  Cas : Nat
  VbID : Nat
  StreamID : Nat
  CollectionID : Nat
  Key : Bytes
deriving DecidableEq, Repr

/-- Transport callback payload gocbcore.DcpSeqNoAdvanced (fields the observer reads). -/
structure DcpSeqNoAdvanced where
  VbID : Nat
  StreamID : Nat
  SeqNo : Nat
deriving DecidableEq, Repr

/-- Transport callback payload gocbcore.DcpCollectionCreation; the observer ignores it. -/
structure DcpCollectionCreation where
  VbID : Nat
deriving DecidableEq, Repr

/-- Transport callback payload gocbcore.DcpCollectionDeletion; the observer ignores it. -/
structure DcpCollectionDeletion where
  VbID : Nat
deriving DecidableEq, Repr

/-- Transport callback payload gocbcore.DcpCollectionFlush; the observer ignores it. -/
structure DcpCollectionFlush where
  VbID : Nat
deriving DecidableEq, Repr

/-- Transport callback payload gocbcore.DcpScopeCreation; the observer ignores it. -/
structure DcpScopeCreation where
  VbID : Nat
deriving DecidableEq, Repr

/-- Transport callback payload gocbcore.DcpScopeDeletion; the observer ignores it. -/
structure DcpScopeDeletion where
  VbID : Nat
deriving DecidableEq, Repr

/-- Transport callback payload gocbcore.DcpCollectionModification; the observer ignores it. -/
structure DcpCollectionModification where
  VbID : Nat
deriving DecidableEq, Repr

/-- Transport callback payload gocbcore.DcpOSOSnapshot; the observer ignores it. -/
structure DcpOSOSnapshot where
  VbID : Nat
deriving DecidableEq, Repr

/-- Embedded struct streamEventCommon from the dcp event definitions. -/
structure streamEventCommon where
  vbID : Nat
  streamID : Nat
deriving DecidableEq, Repr

/-- Method streamEventCommon.VbID: returns the vbID field. -/
def streamEventCommon.VbID (sec : streamEventCommon) : Nat :=
  sec.vbID

/-- Internal event snapshotEvent. -/
structure snapshotEvent where
  streamEventCommon : streamEventCommon
  startSeq : Nat
  endSeq : Nat
  snapshotType : SnapshotState
deriving DecidableEq, Repr

/-- Internal event mutationEvent. -/
structure mutationEvent where
  streamEventCommon : streamEventCommon
  seq : Nat
  flags : Nat
  expiry : Nat
  cas : Nat
  datatype : Nat
  collection : Nat
  key : Bytes
  value : Bytes
deriving DecidableEq, Repr

/-- Internal event deletionEvent. -/
structure deletionEvent where
  streamEventCommon : streamEventCommon
  seq : Nat
  cas : Nat
  datatype : Nat
  collection : Nat
  key : Bytes
  value : Bytes
deriving DecidableEq, Repr

/-- Internal event endStreamEvent. -/
structure endStreamEvent where
  streamEventCommon : streamEventCommon
  err : GoError
deriving DecidableEq, Repr

/-- Internal event seqnoAdvancedEvent. -/
structure seqnoAdvancedEvent where
  streamEventCommon : streamEventCommon
  seq : Nat
deriving DecidableEq, Repr

/-- The streamEvent interface: the closed union of event values the observer sends. -/
inductive streamEvent where
  | snapshot (e : snapshotEvent)
  | mutation (e : mutationEvent)
  | deletion (e : deletionEvent)
  | endStream (e : endStreamEvent)
  | seqnoAdvanced (e : seqnoAdvancedEvent)
deriving DecidableEq, Repr

/-- The VbID() method of the streamEvent interface: every variant delegates to the
embedded streamEventCommon. -/
def streamEvent.VbID : streamEvent → Nat
  | .snapshot e => e.streamEventCommon.VbID
  | .mutation e => e.streamEventCommon.VbID
  | .deletion e => e.streamEventCommon.VbID
  | .endStream e => e.streamEventCommon.VbID
  | .seqnoAdvanced e => e.streamEventCommon.VbID

/-- The streamID carried by an event, read from the embedded streamEventCommon. -/
def streamEvent.sid : streamEvent → Nat
  | .snapshot e => e.streamEventCommon.streamID
  | .mutation e => e.streamEventCommon.streamID
  | .deletion e => e.streamEventCommon.streamID
  | .endStream e => e.streamEventCommon.streamID
  | .seqnoAdvanced e => e.streamEventCommon.streamID

/-- A side effect performed by an observer callback: either
`workerForVbno(vbno).Send(e)` (recorded with the vbno argument passed to
workerForVbno, whose own body is outside the embedded sources), or the warning
log emitted for unexpected expirations. -/
inductive ObserverAction where
  | send (vbno : Nat) (e : streamEvent)
  | warnUnexpectedExpiration (vbno : Nat) (key : Bytes)
deriving DecidableEq, Repr

/-- The Send effects of an action list, with the vbno each was routed by. -/
def sendsOf (acts : List ObserverAction) : List (Nat × streamEvent) :=
  acts.filterMap fun a =>
    match a with
    | .send vbno e => some (vbno, e)
    | .warnUnexpectedExpiration _ _ => none

/-- Source DCPClient.filteredKey in dcp_client_stream_observer.go: the filter
hook, stubbed in the source to return false for every key. -/
def DCPClient.filteredKey (_key : Bytes) : Bool :=
  false

/-- Source DCPClient.SnapshotMarker: builds a snapshotEvent copying the marker
fields and sends it to workerForVbno(snapshotMarker.VbID), unconditionally. -/
def DCPClient.SnapshotMarker (snapshotMarker : DcpSnapshotMarker) : List ObserverAction :=
  [ObserverAction.send snapshotMarker.VbID (streamEvent.snapshot
    { streamEventCommon :=
        { vbID := snapshotMarker.VbID
          streamID := snapshotMarker.StreamID }
      startSeq := snapshotMarker.StartSeqNo
      endSeq := snapshotMarker.EndSeqNo
      snapshotType := snapshotMarker.SnapshotType })]

/-- Body of source DCPClient.Mutation, with the call the source makes to
dc.filteredKey abstracted as the parameter filteredKey (the spec calls it a
configurable predicate); everything else is the source body: return before any
Send when the key is filtered, else build a mutationEvent copying the callback
fields and send it to workerForVbno(mutation.VbID). -/
def DCPClient.MutationBody (filteredKey : Bytes → Bool) (mutation : DcpMutation) :
    List ObserverAction :=
  if filteredKey mutation.Key then
    []
  else
    [ObserverAction.send mutation.VbID (streamEvent.mutation
      { streamEventCommon :=
          { vbID := mutation.VbID
            streamID := mutation.StreamID }
        seq := mutation.SeqNo
        flags := mutation.Flags
        expiry := mutation.Expiry
        cas := mutation.Cas
        datatype := mutation.Datatype
        collection := mutation.CollectionID
        key := mutation.Key
        value := mutation.Value })]

/-- Source DCPClient.Mutation: the body applied to the stubbed dc.filteredKey. -/
def DCPClient.Mutation : DcpMutation → List ObserverAction :=
  DCPClient.MutationBody DCPClient.filteredKey

/-- Body of source DCPClient.Deletion, with the call the source makes to
dc.filteredKey abstracted as the parameter filteredKey: return before any Send
when the key is filtered, else build a deletionEvent copying the callback
fields and send it to workerForVbno(deletion.VbID). -/
def DCPClient.DeletionBody (filteredKey : Bytes → Bool) (deletion : DcpDeletion) :
    List ObserverAction :=
  if filteredKey deletion.Key then
    []
  else
    [ObserverAction.send deletion.VbID (streamEvent.deletion
      { streamEventCommon :=
          { vbID := deletion.VbID
            streamID := deletion.StreamID }
        seq := deletion.SeqNo
        cas := deletion.Cas
        datatype := deletion.Datatype
        collection := deletion.CollectionID
        key := deletion.Key
        value := deletion.Value })]

/-- Source DCPClient.Deletion: the body applied to the stubbed dc.filteredKey. -/
def DCPClient.Deletion : DcpDeletion → List ObserverAction :=
  DCPClient.DeletionBody DCPClient.filteredKey

/-- Source DCPClient.End: builds an endStreamEvent copying the callback fields
and the error, and sends it to workerForVbno(end.VbID), unconditionally. -/
def DCPClient.End (en : DcpStreamEnd) (err : GoError) : List ObserverAction :=
  [ObserverAction.send en.VbID (streamEvent.endStream
    { streamEventCommon :=
        { vbID := en.VbID
          streamID := en.StreamID }
      err := err })]

/-- Source DCPClient.Expiration: logs a warning about the unexpected expiration
event (naming the vbucket and key) and sends nothing. -/
def DCPClient.Expiration (expiration : DcpExpiration) : List ObserverAction :=
  [ObserverAction.warnUnexpectedExpiration expiration.VbID expiration.Key]

/-- Source DCPClient.CreateCollection: empty body. -/
def DCPClient.CreateCollection (_creation : DcpCollectionCreation) : List ObserverAction :=
  []

/-- Source DCPClient.DeleteCollection: empty body. -/
def DCPClient.DeleteCollection (_deletion : DcpCollectionDeletion) : List ObserverAction :=
  []

/-- Source DCPClient.FlushCollection: empty body. -/
def DCPClient.FlushCollection (_flush : DcpCollectionFlush) : List ObserverAction :=
  []

/-- Source DCPClient.CreateScope: empty body. -/
def DCPClient.CreateScope (_creation : DcpScopeCreation) : List ObserverAction :=
  []

/-- Source DCPClient.DeleteScope: empty body. -/
def DCPClient.DeleteScope (_deletion : DcpScopeDeletion) : List ObserverAction :=
  []

/-- Source DCPClient.ModifyCollection: empty body. -/
def DCPClient.ModifyCollection (_modification : DcpCollectionModification) : List ObserverAction :=
  []

/-- Source DCPClient.OSOSnapshot: empty body. -/
def DCPClient.OSOSnapshot (_snapshot : DcpOSOSnapshot) : List ObserverAction :=
  []

/-- Source DCPClient.SeqNoAdvanced: builds a seqnoAdvancedEvent copying the
callback fields and sends it to workerForVbno(seqNoAdvanced.VbID),
unconditionally. -/
def DCPClient.SeqNoAdvanced (seqNoAdvanced : DcpSeqNoAdvanced) : List ObserverAction :=
  [ObserverAction.send seqNoAdvanced.VbID (streamEvent.seqnoAdvanced
    { streamEventCommon :=
        { vbID := seqNoAdvanced.VbID
          streamID := seqNoAdvanced.StreamID }
      seq := seqNoAdvanced.SeqNo })]

/-- Feed event opcodes sgbucket.FeedOpMutation and sgbucket.FeedOpDeletion. -/
inductive FeedOpcode where
  | FeedOpMutation
  | FeedOpDeletion
deriving DecidableEq, Repr

/-- Modelled from the spec: the outward Feed Event form, listed in the spec as
opcode, partition, seq, cas, flags, expiry, collectionID, datatype, key, value
and receivedAt.  The Go struct sgbucket.FeedEvent lives in the external
sg-bucket dependency and is not under the embedded sources; its field names
follow the source struct literals (VbNo for partition, TimeReceived for
receivedAt, Seq for seq).  A Go struct literal leaves unnamed fields at their
zero value, recorded here as default values. -/
structure FeedEvent where
  Opcode : FeedOpcode
  Flags : Nat := 0
  Expiry : Nat := 0
  Key : Bytes := []
  Value : Bytes := []
  DataType : Nat := 0
  Cas : Nat := 0
  VbNo : Nat := 0
  TimeReceived : Nat := 0
  CollectionID : Nat := 0
  Seq : Nat := 0
deriving DecidableEq, Repr

/-- Source mutationEvent.asFeedEvent.  The source sets TimeReceived from
time.Now(), an external input modelled as the parameter now. -/
def mutationEvent.asFeedEvent (e : mutationEvent) (now : Nat) : FeedEvent :=
  { Opcode := FeedOpcode.FeedOpMutation
    Flags := e.flags
    Expiry := e.expiry
    CollectionID := e.collection
    Key := e.key
    Value := e.value
    DataType := e.datatype
    Cas := e.cas
    VbNo := e.streamEventCommon.vbID
    TimeReceived := now }

/-- Source deletionEvent.asFeedEvent.  The source sets TimeReceived from
time.Now(), an external input modelled as the parameter now. -/
def deletionEvent.asFeedEvent (e : deletionEvent) (now : Nat) : FeedEvent :=
  { Opcode := FeedOpcode.FeedOpDeletion
    CollectionID := e.collection
    Key := e.key
    Value := e.value
    DataType := e.datatype
    Cas := e.cas
    VbNo := e.streamEventCommon.vbID
    TimeReceived := now }

/-- PasswordString from the sgcollect tool: a Go string, modelled as its bytes. -/
abbrev PasswordString := Bytes

/-- The byte value of the star character that PasswordString marshals to. -/
def starByte : Nat :=
  42

/-- Source PasswordString.GoString: strings.Repeat of a star, len(p) times. -/
def PasswordString.GoString (p : PasswordString) : Bytes :=
  List.replicate p.length starByte

/-- Source PasswordString.MarshalText: bytes.Repeat of a star byte, len(p)
times, together with a nil error. -/
def PasswordString.MarshalText (p : PasswordString) : Bytes × GoError :=
  (List.replicate p.length starByte, none)

/-- Holds when every action in the list is a Send whose workerForVbno argument
equals the VbID() of the event being sent, and that event carries exactly the
given vbID and streamID in its embedded streamEventCommon. -/
def sendsToOwner (vb sid : Nat) (acts : List ObserverAction) : Bool :=
  acts.all fun a =>
    match a with
    | .send w e => w == e.VbID && e.VbID == vb && e.sid == sid
    | .warnUnexpectedExpiration _ _ => false

/-- Claim C1: for every mutation callback and every deletion callback whose key
satisfies the filter predicate, the observer performs no action at all: the
callback returns before any Send, so no worker receives an event and no feed
event with a filtered key can ever be emitted. -/
theorem filtered_keys_never_dispatched
    (filteredKey : Bytes → Bool) (mutation : DcpMutation) (deletion : DcpDeletion)
    (hm : filteredKey mutation.Key = true) (hd : filteredKey deletion.Key = true) :
    DCPClient.MutationBody filteredKey mutation = [] ∧
    DCPClient.DeletionBody filteredKey deletion = [] := by
  constructor <;> simp [DCPClient.MutationBody, DCPClient.DeletionBody, hm, hd]

/-- Witness for claim C1 at a concrete filter and concrete callbacks. -/
theorem filtered_keys_never_dispatched_witness :
    (fun k : Bytes => k == [95]) [95] = true ∧
    (DCPClient.MutationBody (fun k : Bytes => k == [95])
      { SeqNo := 1, Flags := 2, Expiry := 3, Cas := 4, Datatype := 5, VbID := 6,
        StreamID := 7, CollectionID := 8, Key := [95], Value := [9] } = [] ∧
     DCPClient.DeletionBody (fun k : Bytes => k == [95])
      { SeqNo := 1, Cas := 4, Datatype := 5, VbID := 6, StreamID := 7,
        CollectionID := 8, Key := [95], Value := [9] } = []) :=
  ⟨by decide,
   filtered_keys_never_dispatched (fun k : Bytes => k == [95])
     { SeqNo := 1, Flags := 2, Expiry := 3, Cas := 4, Datatype := 5, VbID := 6,
       StreamID := 7, CollectionID := 8, Key := [95], Value := [9] }
     { SeqNo := 1, Cas := 4, Datatype := 5, VbID := 6, StreamID := 7,
       CollectionID := 8, Key := [95], Value := [9] }
     (by decide) (by decide)⟩

/-- Claim C2: snapshot-marker, stream-end and seqno-advanced callbacks each
dispatch exactly their corresponding event, unconditionally: no filter is
consulted and none of these events is ever dropped. -/
theorem snapshot_end_seqnoadvanced_unconditional
    (s : DcpSnapshotMarker) (en : DcpStreamEnd) (err : GoError)
    (sa : DcpSeqNoAdvanced) :
    DCPClient.SnapshotMarker s =
      [ObserverAction.send s.VbID (streamEvent.snapshot
        { streamEventCommon := { vbID := s.VbID, streamID := s.StreamID }
          startSeq := s.StartSeqNo, endSeq := s.EndSeqNo,
          snapshotType := s.SnapshotType })] ∧
    DCPClient.End en err =
      [ObserverAction.send en.VbID (streamEvent.endStream
        { streamEventCommon := { vbID := en.VbID, streamID := en.StreamID }
          err := err })] ∧
    DCPClient.SeqNoAdvanced sa =
      [ObserverAction.send sa.VbID (streamEvent.seqnoAdvanced
        { streamEventCommon := { vbID := sa.VbID, streamID := sa.StreamID }
          seq := sa.SeqNo })] :=
  ⟨rfl, rfl, rfl⟩

/-- Counterexample to claim C3: a mutation event with seq 5 produces a feed
event whose seq field is not 5 — asFeedEvent never populates the seq of the
outward form, which stays at the Go zero value. -/
theorem feed_event_seq_not_copied_cx :
    (mutationEvent.asFeedEvent
      { streamEventCommon := { vbID := 1, streamID := 0 }, seq := 5, flags := 2,
        expiry := 3, cas := 4, datatype := 6, collection := 7, key := [97],
        value := [98] } 0).Seq ≠ 5 := by
  decide

/-- Claim C3 as amended: for every mutation event and every deletion event,
asFeedEvent fills opcode, partition, cas, collectionID, datatype, key, value
and receivedAt from the event (flags and expiry too for mutations), but it
does not carry the event seq: the produced feed event's seq field is zero
regardless of the originating event's seq. -/
theorem feed_event_fields_complete_except_seq
    (e : mutationEvent) (d : deletionEvent) (now : Nat) :
    (e.asFeedEvent now).Opcode = FeedOpcode.FeedOpMutation ∧
    (e.asFeedEvent now).VbNo = e.streamEventCommon.vbID ∧
    (e.asFeedEvent now).Cas = e.cas ∧
    (e.asFeedEvent now).Flags = e.flags ∧
    (e.asFeedEvent now).Expiry = e.expiry ∧
    (e.asFeedEvent now).CollectionID = e.collection ∧
    (e.asFeedEvent now).DataType = e.datatype ∧
    (e.asFeedEvent now).Key = e.key ∧
    (e.asFeedEvent now).Value = e.value ∧
    (e.asFeedEvent now).TimeReceived = now ∧
    (e.asFeedEvent now).Seq = 0 ∧
    (d.asFeedEvent now).Opcode = FeedOpcode.FeedOpDeletion ∧
    (d.asFeedEvent now).VbNo = d.streamEventCommon.vbID ∧
    (d.asFeedEvent now).Cas = d.cas ∧
    (d.asFeedEvent now).CollectionID = d.collection ∧
    (d.asFeedEvent now).DataType = d.datatype ∧
    (d.asFeedEvent now).Key = d.key ∧
    (d.asFeedEvent now).Value = d.value ∧
    (d.asFeedEvent now).TimeReceived = now ∧
    (d.asFeedEvent now).Seq = 0 := by
  simp [mutationEvent.asFeedEvent, deletionEvent.asFeedEvent]

/-- Claim C4: a mutation callback that passes the filter dispatches exactly one
internal mutation event carrying the callback's seq, cas, flags, expiry,
datatype, collection, key and value, and a deletion callback that passes the
filter dispatches exactly one internal deletion event carrying the callback's
seq, cas, datatype, collection, key and value. -/
theorem unfiltered_dispatch_carries_all_attributes
    (filteredKey : Bytes → Bool) (mutation : DcpMutation) (deletion : DcpDeletion)
    (hm : filteredKey mutation.Key = false) (hd : filteredKey deletion.Key = false) :
    DCPClient.MutationBody filteredKey mutation =
      [ObserverAction.send mutation.VbID (streamEvent.mutation
        { streamEventCommon := { vbID := mutation.VbID, streamID := mutation.StreamID }
          seq := mutation.SeqNo, flags := mutation.Flags, expiry := mutation.Expiry,
          cas := mutation.Cas, datatype := mutation.Datatype,
          collection := mutation.CollectionID, key := mutation.Key,
          value := mutation.Value })] ∧
    DCPClient.DeletionBody filteredKey deletion =
      [ObserverAction.send deletion.VbID (streamEvent.deletion
        { streamEventCommon := { vbID := deletion.VbID, streamID := deletion.StreamID }
          seq := deletion.SeqNo, cas := deletion.Cas, datatype := deletion.Datatype,
          collection := deletion.CollectionID, key := deletion.Key,
          value := deletion.Value })] := by
  constructor <;> simp [DCPClient.MutationBody, DCPClient.DeletionBody, hm, hd]

/-- Witness for claim C4 at a concrete filter and concrete callbacks. -/
theorem unfiltered_dispatch_carries_all_attributes_witness :
    (fun k : Bytes => k == [95]) [97] = false ∧
    (DCPClient.MutationBody (fun k : Bytes => k == [95])
      { SeqNo := 1, Flags := 2, Expiry := 3, Cas := 4, Datatype := 5, VbID := 6,
        StreamID := 7, CollectionID := 8, Key := [97], Value := [9] } =
      [ObserverAction.send 6 (streamEvent.mutation
        { streamEventCommon := { vbID := 6, streamID := 7 }, seq := 1, flags := 2,
          expiry := 3, cas := 4, datatype := 5, collection := 8, key := [97],
          value := [9] })] ∧
     DCPClient.DeletionBody (fun k : Bytes => k == [95])
      { SeqNo := 1, Cas := 4, Datatype := 5, VbID := 6, StreamID := 7,
        CollectionID := 8, Key := [97], Value := [9] } =
      [ObserverAction.send 6 (streamEvent.deletion
        { streamEventCommon := { vbID := 6, streamID := 7 }, seq := 1, cas := 4,
          datatype := 5, collection := 8, key := [97], value := [9] })]) :=
  ⟨by decide,
   unfiltered_dispatch_carries_all_attributes (fun k : Bytes => k == [95])
     { SeqNo := 1, Flags := 2, Expiry := 3, Cas := 4, Datatype := 5, VbID := 6,
       StreamID := 7, CollectionID := 8, Key := [97], Value := [9] }
     { SeqNo := 1, Cas := 4, Datatype := 5, VbID := 6, StreamID := 7,
       CollectionID := 8, Key := [97], Value := [9] }
     (by decide) (by decide)⟩

/-- Claim C5: the stubbed filter returns false on every key, so the concrete
observer drops no mutation and no deletion: each such callback always
dispatches its event. -/
theorem filteredKey_stub_never_drops :
    (∀ key : Bytes, DCPClient.filteredKey key = false) ∧
    (∀ mutation : DcpMutation, DCPClient.Mutation mutation =
      [ObserverAction.send mutation.VbID (streamEvent.mutation
        { streamEventCommon := { vbID := mutation.VbID, streamID := mutation.StreamID }
          seq := mutation.SeqNo, flags := mutation.Flags, expiry := mutation.Expiry,
          cas := mutation.Cas, datatype := mutation.Datatype,
          collection := mutation.CollectionID, key := mutation.Key,
          value := mutation.Value })]) ∧
    (∀ deletion : DcpDeletion, DCPClient.Deletion deletion =
      [ObserverAction.send deletion.VbID (streamEvent.deletion
        { streamEventCommon := { vbID := deletion.VbID, streamID := deletion.StreamID }
          seq := deletion.SeqNo, cas := deletion.Cas, datatype := deletion.Datatype,
          collection := deletion.CollectionID, key := deletion.Key,
          value := deletion.Value })]) :=
  ⟨fun _ => rfl, fun _ => rfl, fun _ => rfl⟩

/-- Claim C6: every event any observer callback sends goes to the worker chosen
by workerForVbno applied to a partition equal to the VbID() of the event being
sent, and that event's vbID and streamID are copied unchanged from the
callback payload; this holds for all five dispatching callbacks and for any
filter. -/
theorem dispatch_routed_by_event_vbid
    (filteredKey : Bytes → Bool) (s : DcpSnapshotMarker) (mutation : DcpMutation)
    (deletion : DcpDeletion) (en : DcpStreamEnd) (err : GoError)
    (sa : DcpSeqNoAdvanced) :
    sendsToOwner s.VbID s.StreamID (DCPClient.SnapshotMarker s) = true ∧
    sendsToOwner mutation.VbID mutation.StreamID
      (DCPClient.MutationBody filteredKey mutation) = true ∧
    sendsToOwner deletion.VbID deletion.StreamID
      (DCPClient.DeletionBody filteredKey deletion) = true ∧
    sendsToOwner en.VbID en.StreamID (DCPClient.End en err) = true ∧
    sendsToOwner sa.VbID sa.StreamID (DCPClient.SeqNoAdvanced sa) = true := by
  refine ⟨?_, ?_, ?_, ?_, ?_⟩
  · simp [sendsToOwner, DCPClient.SnapshotMarker, streamEvent.VbID, streamEvent.sid,
      streamEventCommon.VbID]
  · cases hm : filteredKey mutation.Key <;>
      simp [sendsToOwner, DCPClient.MutationBody, hm, streamEvent.VbID, streamEvent.sid,
        streamEventCommon.VbID]
  · cases hd : filteredKey deletion.Key <;>
      simp [sendsToOwner, DCPClient.DeletionBody, hd, streamEvent.VbID, streamEvent.sid,
        streamEventCommon.VbID]
  · simp [sendsToOwner, DCPClient.End, streamEvent.VbID, streamEvent.sid,
      streamEventCommon.VbID]
  · simp [sendsToOwner, DCPClient.SeqNoAdvanced, streamEvent.VbID, streamEvent.sid,
      streamEventCommon.VbID]

/-- Claim C7: an expiration callback only logs a warning naming the vbucket and
key; it performs no Send, so no internal event and hence no feed event results. -/
theorem expiration_logged_not_dispatched (expiration : DcpExpiration) :
    DCPClient.Expiration expiration =
      [ObserverAction.warnUnexpectedExpiration expiration.VbID expiration.Key] ∧
    sendsOf (DCPClient.Expiration expiration) = [] :=
  ⟨rfl, rfl⟩

/-- Claim C8: the collection, scope and OSO-snapshot callbacks are total
no-ops: each is a total function returning the empty action list, performing
no dispatch and touching no state. -/
theorem collection_scope_oso_noop
    (c₁ : DcpCollectionCreation) (c₂ : DcpCollectionDeletion)
    (c₃ : DcpCollectionFlush) (c₄ : DcpScopeCreation) (c₅ : DcpScopeDeletion)
    (c₆ : DcpCollectionModification) (c₇ : DcpOSOSnapshot) :
    DCPClient.CreateCollection c₁ = [] ∧
    DCPClient.DeleteCollection c₂ = [] ∧
    DCPClient.FlushCollection c₃ = [] ∧
    DCPClient.CreateScope c₄ = [] ∧
    DCPClient.DeleteScope c₅ = [] ∧
    DCPClient.ModifyCollection c₆ = [] ∧
    DCPClient.OSOSnapshot c₇ = [] :=
  ⟨rfl, rfl, rfl, rfl, rfl, rfl, rfl⟩

/-- Claim C9: any two passwords of equal length marshal identically — GoString
and MarshalText both produce a run of stars whose length is the password's
length, MarshalText returns a nil error, and both produce the same star run —
so the marshalled form reveals only the password's length. -/
theorem password_marshal_reveals_only_length (p q : PasswordString)
    (h : p.length = q.length) :
    PasswordString.GoString p = PasswordString.GoString q ∧
    PasswordString.MarshalText p = PasswordString.MarshalText q ∧
    PasswordString.GoString p = List.replicate p.length starByte ∧
    PasswordString.MarshalText p = (PasswordString.GoString p, none) := by
  refine ⟨?_, ?_, rfl, rfl⟩ <;>
    simp [PasswordString.GoString, PasswordString.MarshalText, h]

/-- Witness for claim C9 at two concrete equal-length passwords. -/
theorem password_marshal_reveals_only_length_witness :
    ([1, 2, 3] : PasswordString).length = ([4, 5, 6] : PasswordString).length ∧
    (PasswordString.GoString [1, 2, 3] = PasswordString.GoString [4, 5, 6] ∧
     PasswordString.MarshalText [1, 2, 3] = PasswordString.MarshalText [4, 5, 6] ∧
     PasswordString.GoString [1, 2, 3] =
       List.replicate ([1, 2, 3] : PasswordString).length starByte ∧
     PasswordString.MarshalText [1, 2, 3] =
       (PasswordString.GoString [1, 2, 3], none)) :=
  ⟨by decide, password_marshal_reveals_only_length [1, 2, 3] [4, 5, 6] (by decide)⟩

/-- Claim C10: a deletion feed event always has opcode FeedOpDeletion and zero
flags and expiry, while a mutation feed event has opcode FeedOpMutation with
flags and expiry copied from the event. -/
theorem deletion_feed_event_zero_flags_expiry
    (d : deletionEvent) (e : mutationEvent) (now : Nat) :
    (d.asFeedEvent now).Opcode = FeedOpcode.FeedOpDeletion ∧
    (d.asFeedEvent now).Flags = 0 ∧
    (d.asFeedEvent now).Expiry = 0 ∧
    (e.asFeedEvent now).Opcode = FeedOpcode.FeedOpMutation ∧
    (e.asFeedEvent now).Flags = e.flags ∧
    (e.asFeedEvent now).Expiry = e.expiry :=
  ⟨rfl, rfl, rfl, rfl, rfl, rfl⟩

end SGDcp
